import Mathlib

/-!
Verification development for the client-side blog rendering layer
(source: src/js/main.js).  The JavaScript functions are shallowly
embedded as executable Lean definitions: DOM state becomes explicit
record fields, template literals become string concatenation, and the
fallible single-post renderer returns an Except value.
-/

set_option maxRecDepth 40000

namespace BlogSpec

/-- Content section of a post record (src/js/main.js data model):
paragraphs, ingredients and steps are each optional arrays. -/
structure Content where
  paragraphs : Option (List String)
  ingredients : Option (List String)
  steps : Option (List String)
  deriving DecidableEq, Repr

/-- Post record as consumed from the JSON dataset. `image` and `content`
are optional fields; the remaining fields are strings. -/
structure Post where
  slug : String
  title : String
  category : String
  date : String
  excerpt : String
  image : Option String
  content : Option Content
  deriving DecidableEq, Repr

/-- CONFIG.postsPerPage (src/js/main.js line 19). -/
def postsPerPage : Nat := 8

/-- CONFIG.excerptLength (src/js/main.js line 20). -/
def excerptLength : Nat := 150

/-- JavaScript truthiness of an optional string field: undefined and the
empty string are falsy. -/
def jsStrTruthy (o : Option String) : Bool := o.getD "" != ""

/-- JavaScript `o || dflt` on an optional string field. -/
def jsOr (o : Option String) (dflt : String) : String :=
  if jsStrTruthy o then o.getD "" else dflt

/-- Entity encoding of one character, as produced by assigning the text to
a text node and serializing it back (escapeHtml, src/js/main.js 707-712):
the HTML text-serialization escapes the ampersand and both angle brackets. -/
def escapeChar (c : Char) : String :=
  if c = '&' then "&amp;"
  else if c = '<' then "&lt;"
  else if c = '>' then "&gt;"
  else String.singleton c

/-- escapeHtml (src/js/main.js 707-712).  The `!text` early return yields
the empty string, which coincides with mapping over no characters. -/
def escapeHtml (text : String) : String :=
  String.join (text.data.map escapeChar)

/-- Character-level trim used by JavaScript String.prototype.trim: removes
whitespace from both ends. -/
def trimChars (l : List Char) : List Char :=
  ((l.dropWhile Char.isWhitespace).reverse.dropWhile Char.isWhitespace).reverse

/-- JavaScript `s.trim()`. -/
def jsTrim (s : String) : String := String.mk (trimChars s.data)

/-- truncateText (src/js/main.js 702-705): strings not longer than
`maxLength` (and the falsy empty string) are returned unchanged; longer
strings are cut to `maxLength` characters, trimmed, and an ellipsis marker
is appended. -/
def truncateText (text : String) (maxLength : Nat) : String :=
  if text = "" ∨ text.length ≤ maxLength then text
  else jsTrim (String.mk (text.data.take maxLength)) ++ "..."

/-- formatDate (src/js/main.js 692-700) modelled for ISO date-only input
strings: day-of-month, a dash, and the short month name. -/
def monthShort (m : Nat) : String :=
  match m with
  | 1 => "Jan" | 2 => "Feb" | 3 => "Mar" | 4 => "Apr"
  | 5 => "May" | 6 => "Jun" | 7 => "Jul" | 8 => "Aug"
  | 9 => "Sep" | 10 => "Oct" | 11 => "Nov" | 12 => "Dec"
  | _ => "Invalid"

/-- formatDate on an ISO `YYYY-MM-DD` string; the empty string is returned
unchanged per the falsy guard in the source. -/
def formatDate (dateString : String) : String :=
  if dateString = "" then ""
  else
    match dateString.splitOn "-" with
    | _y :: m :: d :: _ =>
        toString ((d.toNat?).getD 0) ++ "-" ++ monthShort ((m.toNat?).getD 0)
    | _ => "NaN-Invalid"

/-! ## Carousel (src/js/main.js 168-302) -/

/-- Carousel DOM state: the active flag of each slide and dot, plus the
module-level `currentSlide` variable. -/
structure CarouselState where
  slides : List Bool
  dots : List Bool
  currentSlide : Int
  deriving DecidableEq, Repr

/-- Wraparound performed by goToSlide (src/js/main.js 276-277): any
negative index becomes the last slide, then any index at or past the end
becomes the first slide. -/
def wrapIndex (index : Int) (slideCount : Nat) : Int :=
  let i1 := if index < 0 then (slideCount : Int) - 1 else index
  if i1 ≥ (slideCount : Int) then 0 else i1

/-- goToSlide (src/js/main.js 269-288): early return when there are no
slides; otherwise every slide and dot is deactivated, the slide (and the
dot, when it exists) at the wrapped index is activated, and
`currentSlide` is updated to the wrapped index. -/
def goToSlide (s : CarouselState) (index : Int) : CarouselState :=
  if s.slides.length = 0 then s
  else
    let i := wrapIndex index s.slides.length
    { slides := (List.range s.slides.length).map fun j => decide ((j : Int) = i)
      dots := (List.range s.dots.length).map fun j => decide ((j : Int) = i)
      currentSlide := i }

/-! ## Pagination (src/js/main.js 316-386) -/

/-- Items emitted into the pagination container, in order. -/
inductive PagItem where
  | prevBtn : PagItem
  | pageBtn (n : Nat) (active : Bool) : PagItem
  | dots : PagItem
  | nextBtn : PagItem
  deriving DecidableEq, Repr

/-- Total page count, Math.ceil(postsData.length / CONFIG.postsPerPage)
(src/js/main.js line 343). -/
def totalPagesFor (numPosts : Nat) : Nat :=
  (numPosts + postsPerPage - 1) / postsPerPage

/-- Body of the page-number loop (src/js/main.js 367-373) at index `i`.
The JavaScript comparisons `i >= currentPage - 1` and `i === currentPage - 2`
over integers are rendered subtraction-free over naturals. -/
def pageEntry (totalPages currentPage i : Nat) : List PagItem :=
  if i = 1 ∨ i = totalPages ∨ (currentPage ≤ i + 1 ∧ i ≤ currentPage + 1) then
    [PagItem.pageBtn i (decide (i = currentPage))]
  else if i + 2 = currentPage ∨ i = currentPage + 2 then
    [PagItem.dots]
  else []

/-- renderPaginationControls (src/js/main.js 342-381): nothing for at most
one page; otherwise an optional Previous button, the page-number loop from
1 to totalPages, and an optional Next button. -/
def renderPaginationControls (numPosts currentPage : Nat) : List PagItem :=
  let totalPages := totalPagesFor numPosts
  if totalPages ≤ 1 then []
  else
    (if 1 < currentPage then [PagItem.prevBtn] else [])
    ++ (List.range' 1 totalPages).flatMap (pageEntry totalPages currentPage)
    ++ (if currentPage < totalPages then [PagItem.nextBtn] else [])

/-- JavaScript `Array.prototype.slice(start, stop)` for in-range
non-negative bounds. -/
def jsSlice (l : List α) (start stop : Nat) : List α :=
  (l.take stop).drop start

/-- renderPagedPosts (src/js/main.js 316-325): early return on an empty
dataset, else the slice `[(page-1)*pageSize, (page-1)*pageSize+pageSize)`
of the post sequence, rendered as cards in order. -/
def renderPagedPosts (posts : List Post) (page : Nat) : List Post :=
  if posts.length = 0 then []
  else
    let startIndex := (page - 1) * postsPerPage
    jsSlice posts startIndex (startIndex + postsPerPage)

/-! ## Related posts (src/js/main.js 575-614) -/

/-- Selection logic of renderRelatedPosts (src/js/main.js 582-592): posts
of the same category excluding the current post; when fewer than 3, the
whole pool of non-current posts is appended before taking 3. -/
def renderRelatedPosts (currentPost : Post) (allPosts : List Post) : List Post :=
  let related := allPosts.filter fun p =>
    p.category == currentPost.category && p.slug != currentPost.slug
  if related.length < 3 then
    let others := allPosts.filter fun p => p.slug != currentPost.slug
    (related ++ others).take 3
  else
    related.take 3

/-! ## Single-post renderer (src/js/main.js 442-570) -/

/-- One emitted unit of the single-post page, in document order. -/
inductive Block where
  | titleB (t : String)
  | metaB (category dateText : String)
  | imageB (src alt : String)
  | para (t : String)
  | adB
  | ingredientsB (items : List String)
  | stepsB (items : List String)
  deriving DecidableEq, Repr

/-- The paragraph forEach loop of renderSinglePost (src/js/main.js
519-532) starting at index `i`: each paragraph is emitted escaped, and the
mid-content advertisement is emitted right after the paragraph at index 2. -/
def paragraphBlocksFrom (i : Nat) : List String → List Block
  | [] => []
  | p :: ps =>
      Block.para (escapeHtml p)
        :: ((if i = 2 then [Block.adB] else []) ++ paragraphBlocksFrom (i + 1) ps)

/-- Body of renderSinglePost (src/js/main.js 515-564): paragraphs with the
mid-content ad, then the labeled ingredients list when present and
non-empty, then the labeled steps list when present and non-empty, then
the unconditional end-content ad. -/
def bodyBlocks (c : Content) : List Block :=
  (match c.paragraphs with
   | some ps => if 0 < ps.length then paragraphBlocksFrom 0 ps else []
   | none => [])
  ++ (match c.ingredients with
      | some l => if 0 < l.length then [Block.ingredientsB (l.map escapeHtml)] else []
      | none => [])
  ++ (match c.steps with
      | some l => if 0 < l.length then [Block.stepsB (l.map escapeHtml)] else []
      | none => [])
  ++ [Block.adB]

/-- renderSinglePost (src/js/main.js 490-570).  The source dereferences
`post.content.paragraphs` unconditionally, so a record without `content`
throws a TypeError, modelled as the error branch; otherwise the parts are
emitted in fixed order: title, meta, optional featured image, body. -/
def renderSinglePost (post : Post) : Except String (List Block) :=
  match post.content with
  | none => Except.error "Cannot read properties of undefined (reading paragraphs)"
  | some c =>
      Except.ok
        ([Block.titleB (escapeHtml post.title),
          Block.metaB (escapeHtml post.category) (formatDate post.date)]
         ++ (if jsStrTruthy post.image then
               [Block.imageB (escapeHtml (post.image.getD "")) (escapeHtml post.title)]
             else [])
         ++ bodyBlocks c)

/-- showError (src/js/main.js 714-729): the error message is escaped and
wrapped in the loading div. -/
def showErrorHtml (message : String) : String :=
  "<div class=\"loading\" style=\"color: #ef4444;\">" ++ escapeHtml message ++ "</div>"

/-- Resulting content of the post container. -/
inductive PostPageView where
  | rendered (blocks : List Block)
  | errorView (html : String)
  deriving DecidableEq, Repr

/-- The try/catch around renderSinglePost in loadSinglePost (src/js/main.js
480-485): a render exception is caught and surfaced via showError. -/
def loadSinglePostView (post : Post) : PostPageView :=
  match renderSinglePost post with
  | Except.ok blocks => PostPageView.rendered blocks
  | Except.error e =>
      PostPageView.errorView (showErrorHtml ("Error rendering post: " ++ e))

/-! ## Data loading (src/js/main.js 82-139) -/

/-- Outcome of one fetch attempt: a parsed JSON payload whose `posts` key
may be absent, a non-success HTTP status, or a fetch/parse exception. -/
inductive FetchResult where
  | success (posts : Option (List Post))
  | httpError (status : Nat)
  | failure (message : String)
  deriving DecidableEq, Repr

/-- The DOM state the loaders can touch: the postsGrid container, when the
current page has one. -/
structure Dom where
  postsGrid : Option String
  deriving DecidableEq, Repr

/-- The user-facing error markup written into the grid by loadPostsData
(src/js/main.js 128-135). -/
def errorBlockHtml (message dataPath : String) : String :=
  "<div style=\"grid-column: 1/-1; text-align: center; padding: 40px;\">"
    ++ "<h3>Unable to load posts</h3>"
    ++ "<p>Error: " ++ message ++ "</p>"
    ++ "<p>Path: " ++ dataPath ++ "</p>"
    ++ "<p>Please check browser console for details.</p></div>"

/-- loadPostsData (src/js/main.js 105-139): on success the `posts` array
(or empty when the key is absent); a non-success status throws an
`HTTP error! status: N` error into the same catch as a fetch/parse
failure, which renders the error block into the grid (when present) and
returns the empty sequence. -/
def loadPostsData (result : FetchResult) (dataPath : String) (dom : Dom) :
    List Post × Dom :=
  match result with
  | FetchResult.success posts => (posts.getD [], dom)
  | FetchResult.httpError status =>
      let msg := "HTTP error! status: " ++ toString status
      ([], { dom with postsGrid := dom.postsGrid.map fun _ => errorBlockHtml msg dataPath })
  | FetchResult.failure msg =>
      ([], { dom with postsGrid := dom.postsGrid.map fun _ => errorBlockHtml msg dataPath })

/-- loadPostsIndex (src/js/main.js 82-102): on a non-success status or any
exception it falls back to loadPostsData; on success the `posts` array or
empty. -/
def loadPostsIndex (indexResult fullResult : FetchResult) (dataPath : String)
    (dom : Dom) : List Post × Dom :=
  match indexResult with
  | FetchResult.success posts => (posts.getD [], dom)
  | FetchResult.httpError _ => loadPostsData fullResult dataPath dom
  | FetchResult.failure _ => loadPostsData fullResult dataPath dom

/-! ## HTML templates (hero carousel and post card) -/

/-- getLinkPath (src/js/main.js 421-437); `isPostPage` stands for the
window.location check. -/
def getLinkPath (isPostPage : Bool) (ty slugOrCat : String) : String :=
  if ty = "home" then
    if isPostPage then "../index.html" else "index.html"
  else if ty = "post" then
    if isPostPage then slugOrCat ++ ".html" else "posts/" ++ slugOrCat ++ ".html"
  else if ty = "category" then
    (if isPostPage then "../index.html" else "index.html") ++ "#" ++ slugOrCat.toLower
  else "#"

/-- One hero-carousel slide, the template literal of renderHeroCarousel
(src/js/main.js 182-204) with template whitespace compressed and the
quotes inside the onerror attribute value elided.  `post.title` and
`post.excerpt` pass through escapeHtml, while `post.slug` and
`post.image` are interpolated raw. -/
def carouselSlideHtml (post : Post) (index : Nat) : String :=
  "<div class=\"carousel-slide " ++ (if index = 0 then "active" else "")
    ++ "\" data-index=\"" ++ toString index
    ++ "\" data-slug=\"" ++ post.slug ++ "\">"
    ++ "<div class=\"carousel-image-wrapper\">"
    ++ "<img src=\"" ++ jsOr post.image "https://via.placeholder.com/1200x600?text=No+Image"
    ++ "\" alt=\"" ++ escapeHtml post.title
    ++ "\" class=\"carousel-image\""
    ++ " onerror=\"this.src=https://via.placeholder.com/1200x600?text=No+Image\">"
    ++ "<div class=\"carousel-overlay\"></div></div>"
    ++ "<div class=\"carousel-content\">"
    ++ "<h2 class=\"carousel-title\">" ++ escapeHtml post.title ++ "</h2>"
    ++ "<p class=\"carousel-excerpt\">"
    ++ String.mk ((escapeHtml post.excerpt).data.take 150) ++ "...</p>"
    ++ "<a href=\"posts/" ++ post.slug
    ++ ".html\" class=\"carousel-btn-read\" onclick=\"event.stopPropagation()\">Read Article"
    ++ "<svg width=\"20\" height=\"20\" viewBox=\"0 0 24 24\" fill=\"none\""
    ++ " stroke=\"currentColor\" stroke-width=\"2\">"
    ++ "<line x1=\"5\" y1=\"12\" x2=\"19\" y2=\"12\"></line>"
    ++ "<polyline points=\"12 5 19 12 12 19\"></polyline></svg></a></div></div>"

/-- The innerHTML of one post card built by createPostCard (src/js/main.js
389-418), template whitespace compressed.  Both the image source and all
text fields pass through escapeHtml here. -/
def createPostCardHtml (isPostPage : Bool) (post : Post) : String :=
  (if jsStrTruthy post.image then
      "<div class=\"post-card-image\"><img src=\"" ++ escapeHtml (post.image.getD "")
        ++ "\" alt=\"" ++ escapeHtml post.title ++ "\" loading=\"lazy\"></div>"
    else "")
    ++ "<div class=\"post-card-content\"><div class=\"post-meta\">"
    ++ "<span class=\"post-category\">" ++ escapeHtml post.category ++ "</span>"
    ++ "<span class=\"post-date\">" ++ formatDate post.date ++ "</span></div>"
    ++ "<h2 class=\"post-card-title\"><a href=\"" ++ getLinkPath isPostPage "post" post.slug
    ++ "\">" ++ escapeHtml post.title ++ "</a></h2>"
    ++ "<p class=\"post-card-excerpt\">"
    ++ escapeHtml (truncateText post.excerpt excerptLength) ++ "</p>"
    ++ "<a href=\"" ++ getLinkPath isPostPage "post" post.slug
    ++ "\" class=\"read-more\">Read More</a></div>"

/-! ## Substring search used to state escaping facts -/

/-- Whether `pat` occurs at the head of `l`. -/
def leadsWith : List Char → List Char → Bool
  | [], _ => true
  | _ :: _, [] => false
  | a :: as, b :: bs => a == b && leadsWith as bs

/-- Whether `pat` occurs somewhere in `l`. -/
def hasSubAux (pat : List Char) : List Char → Bool
  | [] => pat.isEmpty
  | c :: cs => leadsWith pat (c :: cs) || hasSubAux pat cs

/-- Whether the string `pat` occurs as a contiguous substring of `s`. -/
def subOf (s pat : String) : Bool := hasSubAux pat.data s.data

/-! ## Sample data used by witnesses and counterexamples -/

/-- A minimal post record with the given slug and category. -/
def mkSample (slug cat : String) : Post :=
  { slug := slug, title := slug, category := cat, date := "", excerpt := "",
    image := none, content := none }

def sampleA : Post := mkSample "a" "Recipes"

def sampleB : Post := mkSample "b" "Recipes"

def sampleCur : Post := mkSample "c" "Recipes"

def sampleD : Post := mkSample "d" "Other"

def sampleE : Post := mkSample "e" "Other"

/-- Five posts; the current post `sampleCur` shares its category with
exactly two others. -/
def fivePosts : List Post := [sampleA, sampleB, sampleCur, sampleD, sampleE]

/-- A five-slide carousel showing slide 0. -/
def carousel5 : CarouselState :=
  { slides := [true, false, false, false, false],
    dots := [true, false, false, false, false],
    currentSlide := 0 }

/-- A carousel with no slides. -/
def carousel0 : CarouselState := { slides := [], dots := [], currentSlide := 0 }

/-- Twenty posts with distinct slugs. -/
def posts20 : List Post := (List.range 20).map fun k => mkSample (toString k) "Cat"

/-! ## Claim C1: related-posts selection -/

/-- Claim C1 as stated is false: with the five-post sequence above, the
backfill pool starts again at the head of the list, so the selection is
`[a, b, a]`: it contains a duplicate, and the third entry has the same
category as the current post rather than a different one. -/
theorem relatedPosts_duplicate_counterexample :
    renderRelatedPosts sampleCur fivePosts = [sampleA, sampleB, sampleA] ∧
    ¬ (renderRelatedPosts sampleCur fivePosts).Nodup ∧
    (renderRelatedPosts sampleCur fivePosts).map Post.category =
      ["Recipes", "Recipes", "Recipes"] := by decide

/-- Claim C1, amended: with 5 posts of which exactly 2 non-current ones
share the current category, the selection is those 2 same-category posts
followed by the first non-current post of the original sequence (which may
repeat a same-category post), 3 entries in total. -/
theorem relatedPosts_backfill_amended (cur : Post) (allPosts : List Post)
    (h5 : allPosts.length = 5)
    (h2 : (allPosts.filter fun p =>
        p.category == cur.category && p.slug != cur.slug).length = 2) :
    renderRelatedPosts cur allPosts =
      (allPosts.filter fun p => p.category == cur.category && p.slug != cur.slug)
        ++ (allPosts.filter fun p => p.slug != cur.slug).take 1 ∧
    (renderRelatedPosts cur allPosts).length = 3 := by
  have hsub : (allPosts.filter fun p =>
      p.category == cur.category && p.slug != cur.slug).Sublist
      (allPosts.filter fun p => p.slug != cur.slug) :=
    List.monotone_filter_right _ fun p hp => by
      simp only [Bool.and_eq_true] at hp
      exact hp.2
  have holen : 2 ≤ (allPosts.filter fun p => p.slug != cur.slug).length :=
    h2 ▸ hsub.length_le
  constructor
  · simp only [renderRelatedPosts]
    split_ifs with hcond
    · have h3 : (3 : Nat) = (allPosts.filter fun p =>
          p.category == cur.category && p.slug != cur.slug).length + 1 := by omega
      rw [h3, List.take_append]
    · exact absurd (by omega) hcond
  · simp only [renderRelatedPosts]
    split_ifs with hcond
    · rw [List.length_take, List.length_append, h2]
      omega
    · exact absurd (by omega) hcond

/-- Witness for the amended claim C1 at the concrete five-post sequence. -/
theorem relatedPosts_backfill_witness :
    fivePosts.length = 5 ∧
    (fivePosts.filter fun p =>
        p.category == sampleCur.category && p.slug != sampleCur.slug).length = 2 ∧
    (renderRelatedPosts sampleCur fivePosts =
        (fivePosts.filter fun p =>
          p.category == sampleCur.category && p.slug != sampleCur.slug)
          ++ (fivePosts.filter fun p => p.slug != sampleCur.slug).take 1 ∧
      (renderRelatedPosts sampleCur fivePosts).length = 3) :=
  ⟨by decide, by decide,
    relatedPosts_backfill_amended sampleCur fivePosts (by decide) (by decide)⟩

/-! ## Claim C3: goToSlide wraparound -/

/-- Claim C3 as stated is false: the wraparound is not modular.  On a
5-slide carousel, index -2 is sent to slide 4 (the last slide), whereas
modular wraparound, -2 mod 5, is 3. -/
theorem goToSlide_not_modular_counterexample :
    wrapIndex (-2) 5 = 4 ∧ wrapIndex (-2) 5 ≠ (-2 : Int) % 5 ∧
    (goToSlide carousel5 (-2)).currentSlide = 4 := by decide

/-- Claim C3, amended: on a carousel with at least one slide, goToSlide
stores the wrapped index, which lies in `[0, slideCount)`; every negative
index wraps to the last slide, every index at or past the end wraps to the
first, in-range indices are kept, and exactly the slide at the wrapped
index is activated.  In particular -1 wraps to the last slide and
slideCount wraps to slide 0. -/
theorem goToSlide_wrap_amended (s : CarouselState) (i : Int)
    (h : 0 < s.slides.length) :
    (goToSlide s i).currentSlide = wrapIndex i s.slides.length ∧
    0 ≤ wrapIndex i s.slides.length ∧
    wrapIndex i s.slides.length < (s.slides.length : Int) ∧
    (i < 0 → wrapIndex i s.slides.length = (s.slides.length : Int) - 1) ∧
    ((s.slides.length : Int) ≤ i → wrapIndex i s.slides.length = 0) ∧
    (0 ≤ i → i < (s.slides.length : Int) → wrapIndex i s.slides.length = i) ∧
    (goToSlide s i).slides =
      (List.range s.slides.length).map
        (fun j => decide ((j : Int) = wrapIndex i s.slides.length)) := by
  have hne : ¬ s.slides.length = 0 := by omega
  refine ⟨by simp [goToSlide, hne], ?_, ?_, ?_, ?_, ?_, by simp [goToSlide, hne]⟩
  all_goals simp only [wrapIndex]
  all_goals split_ifs <;> omega

/-- Witness for the amended claim C3: both spec examples on the concrete
5-slide carousel. -/
theorem goToSlide_wrap_witness :
    0 < carousel5.slides.length ∧
    (goToSlide carousel5 (-1)).currentSlide = wrapIndex (-1) carousel5.slides.length ∧
    (goToSlide carousel5 5).currentSlide = wrapIndex 5 carousel5.slides.length ∧
    wrapIndex (-1) carousel5.slides.length = 4 ∧
    wrapIndex 5 carousel5.slides.length = 0 :=
  ⟨by decide, (goToSlide_wrap_amended carousel5 (-1) (by decide)).1,
    (goToSlide_wrap_amended carousel5 5 (by decide)).1, by decide, by decide⟩

/-! ## Claim C10: currentSlide stays in range -/

/-- Claim C10: for every integer argument, on a non-empty carousel the
stored currentSlide ends up in `[0, slideCount)`, and on an empty carousel
goToSlide changes nothing. -/
theorem currentSlide_in_range (s : CarouselState) (i : Int) :
    (0 < s.slides.length →
      0 ≤ (goToSlide s i).currentSlide ∧
        (goToSlide s i).currentSlide < (s.slides.length : Int)) ∧
    (s.slides.length = 0 → goToSlide s i = s) := by
  constructor
  · intro h
    have hne : ¬ s.slides.length = 0 := by omega
    simp only [goToSlide, hne, if_false]
    constructor <;> (simp only [wrapIndex]; split_ifs <;> omega)
  · intro h
    simp [goToSlide, h]

/-- Witness for claim C10 at a concrete out-of-range argument and at the
empty carousel. -/
theorem currentSlide_in_range_witness :
    (0 ≤ (goToSlide carousel5 7).currentSlide ∧
      (goToSlide carousel5 7).currentSlide < (carousel5.slides.length : Int)) ∧
    goToSlide carousel0 7 = carousel0 :=
  ⟨(currentSlide_in_range carousel5 7).1 (by decide),
    (currentSlide_in_range carousel0 7).2 (by decide)⟩

/-! ## Claim C8: excerpt truncation -/

/-- Helper: dropWhile never lengthens a list. -/
lemma length_dropWhile_le (p : α → Bool) (l : List α) :
    (l.dropWhile p).length ≤ l.length := by
  induction l with
  | nil => simp
  | cons a t ih =>
      rw [List.dropWhile_cons]
      split_ifs <;> simp <;> omega

/-- Helper: trimming never lengthens a list of characters. -/
lemma trimChars_length_le (l : List Char) : (trimChars l).length ≤ l.length := by
  unfold trimChars
  calc ((l.dropWhile Char.isWhitespace).reverse.dropWhile Char.isWhitespace).reverse.length
      = ((l.dropWhile Char.isWhitespace).reverse.dropWhile Char.isWhitespace).length := by
        rw [List.length_reverse]
    _ ≤ (l.dropWhile Char.isWhitespace).reverse.length :=
        length_dropWhile_le Char.isWhitespace _
    _ = (l.dropWhile Char.isWhitespace).length := by rw [List.length_reverse]
    _ ≤ l.length := length_dropWhile_le Char.isWhitespace l

/-- Trailing-only whitespace trim, following the wording of claim C8. -/
def trimTrailingOnly (s : String) : String :=
  String.mk ((s.data.reverse.dropWhile Char.isWhitespace).reverse)

/-- A 151-character excerpt starting with a space. -/
def leadingSpace151 : String := String.mk (' ' :: List.replicate 150 'a')

/-- Claim C8 as stated is false: JavaScript trim also strips leading
whitespace, so on an over-long excerpt starting with a space the output is
not the first 150 characters trimmed of trailing whitespace plus the
marker; the leading space is removed as well. -/
theorem truncateText_leading_space_counterexample :
    truncateText leadingSpace151 150 ≠
      trimTrailingOnly (String.mk (leadingSpace151.data.take 150)) ++ "..." ∧
    truncateText leadingSpace151 150 =
      String.mk (List.replicate 149 'a') ++ "..." := by decide

/-- Claim C8, amended: an excerpt longer than 150 characters becomes its
first 150 characters trimmed of leading and trailing whitespace followed
by the ellipsis marker, at most 153 characters of displayed text; an
excerpt of at most 150 characters is returned unchanged. -/
theorem truncateText_amended (text : String) :
    (150 < text.length →
      truncateText text 150 = jsTrim (String.mk (text.data.take 150)) ++ "..." ∧
      (truncateText text 150).length ≤ 153) ∧
    (text.length ≤ 150 → truncateText text 150 = text) := by
  constructor
  · intro h
    have hne : ¬ (text = "" ∨ text.length ≤ 150) := by
      rintro (rfl | hle)
      · simp at h
      · omega
    have heq : truncateText text 150 = jsTrim (String.mk (text.data.take 150)) ++ "..." := by
      simp only [truncateText, if_neg hne]
    refine ⟨heq, ?_⟩
    rw [heq, String.length_append]
    have hlen : (jsTrim (String.mk (text.data.take 150))).length ≤ 150 := by
      have h1 := trimChars_length_le (text.data.take 150)
      have h2 : (text.data.take 150).length ≤ 150 := by
        rw [List.length_take]; omega
      simpa [jsTrim, String.length] using le_trans h1 h2
    have : ("..." : String).length = 3 := by decide
    omega
  · intro h
    simp [truncateText, h]

/-- Witness for the amended claim C8 on a 200-character excerpt and a
short excerpt. -/
theorem truncateText_amended_witness :
    (150 < (String.mk (List.replicate 200 'b')).length ∧
      truncateText (String.mk (List.replicate 200 'b')) 150 =
        jsTrim (String.mk ((String.mk (List.replicate 200 'b')).data.take 150)) ++ "..." ∧
      (truncateText (String.mk (List.replicate 200 'b')) 150).length ≤ 153) ∧
    truncateText "short" 150 = "short" :=
  ⟨⟨by decide,
    (truncateText_amended (String.mk (List.replicate 200 'b'))).1 (by decide)⟩,
    (truncateText_amended "short").2 (by decide)⟩

/-! ## Claim C9: rendering a post without content -/

/-- Claim C9: renderSinglePost dereferences the content record
unconditionally, so a post without `content` always yields the render
error, which loadSinglePost surfaces as the Error-rendering-post message
in the post container; such a post is never shown as a body-less page. -/
theorem missing_content_render_error (post : Post) :
    renderSinglePost { post with content := none } =
      Except.error "Cannot read properties of undefined (reading paragraphs)" ∧
    loadSinglePostView { post with content := none } =
      PostPageView.errorView (showErrorHtml
        ("Error rendering post: Cannot read properties of undefined (reading paragraphs)")) :=
  ⟨rfl, rfl⟩

/-! ## Claim C6: data loaders and their fallback -/

/-- Claim C6: the index loader falls back to the full loader on a
non-success status or a fetch/parse failure and otherwise returns the
posts array (empty when the key is absent); the full loader on failure
returns the empty sequence and writes the error block, which contains the
attempted path string, into the grid container. -/
theorem data_loaders_spec (rf : FetchResult) (path m g : String) (st : Nat)
    (ps : List Post) (dom : Dom) :
    (loadPostsIndex (FetchResult.httpError st) rf path dom = loadPostsData rf path dom) ∧
    (loadPostsIndex (FetchResult.failure m) rf path dom = loadPostsData rf path dom) ∧
    (loadPostsIndex (FetchResult.success (some ps)) rf path dom = (ps, dom)) ∧
    (loadPostsIndex (FetchResult.success none) rf path dom = ([], dom)) ∧
    (loadPostsData (FetchResult.success (some ps)) path dom = (ps, dom)) ∧
    (loadPostsData (FetchResult.success none) path dom = ([], dom)) ∧
    (loadPostsData (FetchResult.failure m) path { postsGrid := some g } =
      ([], { postsGrid := some (errorBlockHtml m path) })) ∧
    (loadPostsData (FetchResult.httpError st) path { postsGrid := some g } =
      ([],
        { postsGrid := some (errorBlockHtml ("HTTP error! status: " ++ toString st) path) })) ∧
    (∃ a b, errorBlockHtml m path = a ++ (path ++ b)) := by
  refine ⟨rfl, rfl, rfl, rfl, rfl, rfl, rfl, rfl,
    ⟨"<div style=\"grid-column: 1/-1; text-align: center; padding: 40px;\">"
        ++ "<h3>Unable to load posts</h3>"
        ++ "<p>Error: " ++ m ++ "</p>" ++ "<p>Path: ",
      "</p>" ++ "<p>Please check browser console for details.</p></div>", ?_⟩⟩
  simp [errorBlockHtml, String.append_assoc]

/-! ## Claim C5: paged slicing -/

/-- Helper: on a non-empty dataset, page k+1 is the k-th slice of eight. -/
lemma renderPagedPosts_eq (posts : List Post) (hne : ¬ posts.length = 0) (k : Nat) :
    renderPagedPosts posts (k + 1) = (posts.drop (8 * k)).take 8 := by
  have e1 : (k + 1 - 1) * postsPerPage = 8 * k := by
    simp only [postsPerPage]
    omega
  simp only [renderPagedPosts, if_neg hne, jsSlice, e1]
  rw [List.drop_take]
  congr 1
  simp only [postsPerPage]
  omega

/-- Helper: the eight-sized slices of a list, flattened in order,
reconstruct the list as soon as enough slices are taken. -/
lemma slices_flatten : ∀ (n : Nat) (l : List Post), l.length ≤ 8 * n →
    ((List.range n).map (fun k => (l.drop (8 * k)).take 8)).flatten = l := by
  intro n
  induction n with
  | zero =>
      intro l h
      have : l = [] := by
        rw [← List.length_eq_zero]
        omega
      simp [this]
  | succ n ih =>
      intro l h
      rw [List.range_succ_eq_map, List.map_cons, List.map_map, List.flatten_cons]
      have hrw : ((List.range n).map ((fun k => (l.drop (8 * k)).take 8) ∘ Nat.succ)).flatten
          = (l.drop 8) := by
        have hfun : ∀ k : Nat, ((fun k => (l.drop (8 * k)).take 8) ∘ Nat.succ) k
            = ((l.drop 8).drop (8 * k)).take 8 := by
          intro k
          simp only [Function.comp]
          rw [List.drop_drop]
          congr 2
          omega
        rw [List.map_congr_left fun k _ => hfun k]
        exact ih (l.drop 8) (by rw [List.length_drop]; omega)
      rw [hrw]
      simp

/-- Claim C5: for a valid page number, the rendered page is the contiguous
slice of length min(8, N-(p-1)*8) starting at (p-1)*8, and concatenating
all pages in order reconstructs the post sequence. -/
theorem renderPagedPosts_slice_spec (posts : List Post) (p : Nat)
    (h1 : 1 ≤ p) (h2 : p ≤ totalPagesFor posts.length) :
    (renderPagedPosts posts p).length =
      min postsPerPage (posts.length - (p - 1) * postsPerPage) ∧
    ((List.range (totalPagesFor posts.length)).map
      (fun k => renderPagedPosts posts (k + 1))).flatten = posts := by
  have hne : ¬ posts.length = 0 := by
    intro h0
    rw [h0] at h2
    have : totalPagesFor 0 = 0 := rfl
    omega
  constructor
  · obtain ⟨k, rfl⟩ : ∃ k, p = k + 1 := ⟨p - 1, by omega⟩
    rw [renderPagedPosts_eq posts hne k, List.length_take, List.length_drop]
    simp only [postsPerPage, Nat.add_sub_cancel]
    omega
  · rw [List.map_congr_left fun k _ => renderPagedPosts_eq posts hne k]
    apply slices_flatten
    simp only [totalPagesFor, postsPerPage]
    omega

/-- Witness for claim C5: twenty posts, page 3 holds the last four. -/
theorem renderPagedPosts_slice_witness :
    1 ≤ 3 ∧ 3 ≤ totalPagesFor posts20.length ∧
    ((renderPagedPosts posts20 3).length =
        min postsPerPage (posts20.length - (3 - 1) * postsPerPage) ∧
      ((List.range (totalPagesFor posts20.length)).map
        (fun k => renderPagedPosts posts20 (k + 1))).flatten = posts20) :=
  ⟨by decide, by decide, renderPagedPosts_slice_spec posts20 3 (by decide) (by decide)⟩

/-! ## Claim C7: single-post part order -/

/-- Helper: once the running index has passed 2, the paragraph loop is a
plain map. -/
lemma paragraphBlocksFrom_ge3 (ps : List String) : ∀ i, 3 ≤ i →
    paragraphBlocksFrom i ps = ps.map (fun p => Block.para (escapeHtml p)) := by
  induction ps with
  | nil => intro i _; rfl
  | cons a t ih =>
      intro i h
      rw [paragraphBlocksFrom, if_neg (by omega : ¬ i = 2), ih (i + 1) (by omega)]
      simp

/-- Helper: closed form of the paragraph loop: the first three paragraphs,
then the mid-content ad exactly when at least three paragraphs exist, then
the rest. -/
lemma paragraphBlocks_closed (ps : List String) :
    paragraphBlocksFrom 0 ps =
      (ps.map (fun p => Block.para (escapeHtml p))).take 3
        ++ (if 3 ≤ ps.length then [Block.adB] else [])
        ++ (ps.map (fun p => Block.para (escapeHtml p))).drop 3 := by
  match ps with
  | [] => simp [paragraphBlocksFrom]
  | [a] => simp [paragraphBlocksFrom]
  | [a, b] => simp [paragraphBlocksFrom]
  | a :: b :: c :: rest =>
      simp [paragraphBlocksFrom, paragraphBlocksFrom_ge3 rest 3 (by omega),
        Nat.le_add_left]

/-- Claim C7: for every post with a content record, the renderer emits, in
fixed order, the title strictly before the category+date meta, then the
optional featured image, then all paragraphs in input order with one ad
placeholder immediately after the paragraph at index 2 exactly when at
least 3 paragraphs exist, then the labeled ingredients list exactly when
ingredients are present and non-empty, then the labeled steps list exactly
when steps are present and non-empty, then one unconditional ad
placeholder at the end of the body. -/
theorem renderSinglePost_order_spec (post : Post) (c : Content) :
    renderSinglePost { post with content := some c } =
      Except.ok
        ([Block.titleB (escapeHtml post.title),
          Block.metaB (escapeHtml post.category) (formatDate post.date)]
          ++ (if jsStrTruthy post.image then
                [Block.imageB (escapeHtml (post.image.getD "")) (escapeHtml post.title)]
              else [])
          ++ (((c.paragraphs.getD []).map (fun p => Block.para (escapeHtml p))).take 3
              ++ (if 3 ≤ (c.paragraphs.getD []).length then [Block.adB] else [])
              ++ ((c.paragraphs.getD []).map (fun p => Block.para (escapeHtml p))).drop 3)
          ++ (match c.ingredients with
              | some l => if 0 < l.length then [Block.ingredientsB (l.map escapeHtml)] else []
              | none => [])
          ++ (match c.steps with
              | some l => if 0 < l.length then [Block.stepsB (l.map escapeHtml)] else []
              | none => [])
          ++ [Block.adB]) := by
  simp only [renderSinglePost, bodyBlocks]
  have hp : (match c.paragraphs with
      | some ps => if 0 < ps.length then paragraphBlocksFrom 0 ps else []
      | none => ([] : List Block)) =
      ((c.paragraphs.getD []).map (fun p => Block.para (escapeHtml p))).take 3
        ++ (if 3 ≤ (c.paragraphs.getD []).length then [Block.adB] else [])
        ++ ((c.paragraphs.getD []).map (fun p => Block.para (escapeHtml p))).drop 3 := by
    match hps : c.paragraphs with
    | none => simp
    | some ps =>
        match ps with
        | [] => simp
        | a :: t => simp [paragraphBlocks_closed]
  rw [hp]
  simp [List.append_assoc]

/-! ## Claim C2: pagination controls -/

/-- Helper: the Previous button is never produced by the page-number loop. -/
lemma prevBtn_not_mem_pageEntry (T c i : Nat) :
    PagItem.prevBtn ∉ pageEntry T c i := by
  unfold pageEntry
  split_ifs <;> simp

/-- Helper: the Next button is never produced by the page-number loop. -/
lemma nextBtn_not_mem_pageEntry (T c i : Nat) :
    PagItem.nextBtn ∉ pageEntry T c i := by
  unfold pageEntry
  split_ifs <;> simp

/-- Helper: membership of a page button in one loop iteration. -/
lemma pageBtn_mem_pageEntry (T c i n : Nat) (b : Bool) :
    PagItem.pageBtn n b ∈ pageEntry T c i ↔
      ((i = 1 ∨ i = T ∨ (c ≤ i + 1 ∧ i ≤ c + 1)) ∧ n = i ∧ b = decide (i = c)) := by
  unfold pageEntry
  split_ifs with h1 h2 <;> simp [h1]

/-- Helper: the number of ellipsis placeholders one loop iteration emits. -/
lemma count_dots_pageEntry (T c i : Nat) :
    List.count PagItem.dots (pageEntry T c i) =
      if (¬(i = 1 ∨ i = T ∨ (c ≤ i + 1 ∧ i ≤ c + 1))) ∧ (i + 2 = c ∨ i = c + 2)
      then 1 else 0 := by
  unfold pageEntry
  by_cases hA : (i = 1 ∨ i = T ∨ (c ≤ i + 1 ∧ i ≤ c + 1))
  · rw [if_pos hA, if_neg (by tauto)]
    simp
  · rw [if_neg hA]
    by_cases hB : (i + 2 = c ∨ i = c + 2)
    · rw [if_pos hB, if_pos ⟨hA, hB⟩]
      simp
    · rw [if_neg hB, if_neg (by tauto)]
      simp

/-- Helper: counting a fixed value in a contiguous range. -/
lemma countP_range'_single (s n k : Nat) :
    (List.range' s n).countP (fun i => decide (i = k)) =
      if s ≤ k ∧ k < s + n then 1 else 0 := by
  induction n generalizing s with
  | zero =>
      rw [show List.range' s 0 = [] from rfl, List.countP_nil, if_neg (by omega)]
  | succ n ih =>
      rw [List.range'_succ, List.countP_cons, ih (s + 1)]
      simp only [decide_eq_true_eq]
      split_ifs <;> omega

/-- Helper: countP distributes over a pointwise-disjoint disjunction. -/
lemma countP_or_disjoint (l : List Nat) (p q : Nat → Bool)
    (h : ∀ i ∈ l, ¬(p i = true ∧ q i = true)) :
    l.countP (fun i => p i || q i) = l.countP p + l.countP q := by
  induction l with
  | nil => rfl
  | cons a t ih =>
      rw [List.countP_cons, List.countP_cons, List.countP_cons,
        ih fun i hi => h i (List.mem_cons_of_mem a hi)]
      have ha := h a (List.mem_cons_self a t)
      by_cases hp : p a = true
      · have hq : q a = false := by
          cases hq : q a
          · rfl
          · exact absurd ⟨hp, hq⟩ ha
        simp [hp, hq] <;> omega
      · have hp' : p a = false := by simpa using hp
        cases hq : q a <;> simp [hp', hq] <;> omega

/-- Helper: a sum of indicator values is a countP. -/
lemma map_sum_eq_countP (l : List Nat) (P : Nat → Prop) [DecidablePred P] :
    (l.map (fun i => if P i then 1 else 0)).sum = l.countP (fun i => decide (P i)) := by
  induction l with
  | nil => rfl
  | cons a t ih =>
      rw [List.map_cons, List.sum_cons, ih, List.countP_cons]
      by_cases h : P a <;> simp [h, Nat.add_comm]

/-- Helper: the page-number loop emits exactly one ellipsis per non-empty
gap: one below the current window when 4 ≤ c, one above it when c+3 ≤ T. -/
lemma dots_count (T c : Nat) (hT : 2 ≤ T) (hc1 : 1 ≤ c) (hc2 : c ≤ T) :
    List.count PagItem.dots ((List.range' 1 T).flatMap (pageEntry T c)) =
      (if 4 ≤ c then 1 else 0) + (if c + 3 ≤ T then 1 else 0) := by
  rw [List.count_flatMap]
  rw [show (List.count PagItem.dots ∘ pageEntry T c) =
      fun i => if (¬(i = 1 ∨ i = T ∨ (c ≤ i + 1 ∧ i ≤ c + 1))) ∧ (i + 2 = c ∨ i = c + 2)
        then 1 else 0
    from funext fun i => count_dots_pageEntry T c i]
  rw [map_sum_eq_countP]
  by_cases h4 : 4 ≤ c <;> by_cases h3 : c + 3 ≤ T
  · rw [List.countP_congr
      (q := fun i => (decide (i = c - 2)) || (decide (i = c + 2)))
      (fun i hi => by
        rw [List.mem_range'_1] at hi
        simp only [decide_eq_true_eq, Bool.or_eq_true]
        omega)]
    rw [countP_or_disjoint _ _ _
      (fun i _ => by simp only [decide_eq_true_eq]; omega)]
    rw [countP_range'_single, countP_range'_single,
      if_pos (by omega), if_pos (by omega), if_pos h4, if_pos h3]
  · rw [List.countP_congr (q := fun i => decide (i = c - 2))
      (fun i hi => by
        rw [List.mem_range'_1] at hi
        simp only [decide_eq_true_eq]
        omega)]
    rw [countP_range'_single, if_pos (by omega), if_pos h4, if_neg h3]
  · rw [List.countP_congr (q := fun i => decide (i = c + 2))
      (fun i hi => by
        rw [List.mem_range'_1] at hi
        simp only [decide_eq_true_eq]
        omega)]
    rw [countP_range'_single, if_pos (by omega), if_neg h4, if_pos h3]
  · rw [List.countP_congr (q := fun _ => false)
      (fun i hi => by
        rw [List.mem_range'_1] at hi
        simp only [decide_eq_true_eq]
        constructor
        · intro h
          omega
        · intro h
          exact absurd h (by simp))]
    rw [List.countP_false, if_neg h4, if_neg h3]
    rfl

/-- Claim C2 as stated is false at its second example: with 80 posts
(10 pages) and current page 1, the controls are the buttons for pages 1
and 2, one ellipsis, the button for page 10 and the Next button; no
button for page 3 is rendered (page 3 is where the ellipsis sits). -/
theorem pagination_page1_of_10_counterexample :
    renderPaginationControls 80 1 =
      [PagItem.pageBtn 1 true, PagItem.pageBtn 2 false, PagItem.dots,
        PagItem.pageBtn 10 false, PagItem.nextBtn] ∧
    PagItem.pageBtn 3 false ∉ renderPaginationControls 80 1 ∧
    PagItem.pageBtn 3 true ∉ renderPaginationControls 80 1 := by decide

/-- Claim C2, amended: Previous appears iff the current page is not 1 and
Next iff it is not the last page; a page-number button appears exactly for
page 1, the last page and the pages within one of the current page (active
exactly on the current page); and there is exactly one ellipsis per
non-empty gap: one iff 4 ≤ currentPage and one iff currentPage + 3 ≤
totalPages.  For 20 posts at current page 2 this gives buttons {1,2,3}
and no ellipsis; at current page 1 of 10 pages it gives buttons {1,2,10}
with exactly one ellipsis (between 2 and 10), not a button for page 3. -/
theorem pagination_controls_amended (numPosts c : Nat)
    (hT : 2 ≤ totalPagesFor numPosts) (hc1 : 1 ≤ c)
    (hc2 : c ≤ totalPagesFor numPosts) :
    (PagItem.prevBtn ∈ renderPaginationControls numPosts c ↔ c ≠ 1) ∧
    (PagItem.nextBtn ∈ renderPaginationControls numPosts c ↔
      c ≠ totalPagesFor numPosts) ∧
    (∀ n b, PagItem.pageBtn n b ∈ renderPaginationControls numPosts c ↔
      (1 ≤ n ∧ n ≤ totalPagesFor numPosts ∧
        (n = 1 ∨ n = totalPagesFor numPosts ∨ (c ≤ n + 1 ∧ n ≤ c + 1)) ∧
        b = decide (n = c))) ∧
    (List.count PagItem.dots (renderPaginationControls numPosts c) =
      (if 4 ≤ c then 1 else 0)
        + (if c + 3 ≤ totalPagesFor numPosts then 1 else 0)) := by
  have hR : renderPaginationControls numPosts c =
      (if 1 < c then [PagItem.prevBtn] else [])
        ++ (List.range' 1 (totalPagesFor numPosts)).flatMap
            (pageEntry (totalPagesFor numPosts) c)
        ++ (if c < totalPagesFor numPosts then [PagItem.nextBtn] else []) := by
    simp only [renderPaginationControls]
    rw [if_neg (by omega : ¬ totalPagesFor numPosts ≤ 1)]
  refine ⟨?_, ?_, ?_, ?_⟩
  · have e1 : PagItem.prevBtn ∈ (if 1 < c then [PagItem.prevBtn] else []) ↔ 1 < c := by
      split_ifs with h <;> simp [h]
    have e2 : PagItem.prevBtn ∉ (List.range' 1 (totalPagesFor numPosts)).flatMap
        (pageEntry (totalPagesFor numPosts) c) := by
      simp only [List.mem_flatMap]
      rintro ⟨i, -, hmem⟩
      exact prevBtn_not_mem_pageEntry _ c i hmem
    have e3 : PagItem.prevBtn ∉
        (if c < totalPagesFor numPosts then [PagItem.nextBtn] else []) := by
      split_ifs <;> simp
    rw [hR]
    simp only [List.mem_append, e1, e2, e3, or_false]
    omega
  · have e1 : PagItem.nextBtn ∉ (if 1 < c then [PagItem.prevBtn] else []) := by
      split_ifs <;> simp
    have e2 : PagItem.nextBtn ∉ (List.range' 1 (totalPagesFor numPosts)).flatMap
        (pageEntry (totalPagesFor numPosts) c) := by
      simp only [List.mem_flatMap]
      rintro ⟨i, -, hmem⟩
      exact nextBtn_not_mem_pageEntry _ c i hmem
    have e3 : PagItem.nextBtn ∈
        (if c < totalPagesFor numPosts then [PagItem.nextBtn] else []) ↔
        c < totalPagesFor numPosts := by
      split_ifs with h <;> simp [h]
    rw [hR]
    simp only [List.mem_append, e1, e2, e3, false_or]
    omega
  · intro n b
    have e1 : PagItem.pageBtn n b ∉ (if 1 < c then [PagItem.prevBtn] else []) := by
      split_ifs <;> simp
    have e3 : PagItem.pageBtn n b ∉
        (if c < totalPagesFor numPosts then [PagItem.nextBtn] else []) := by
      split_ifs <;> simp
    rw [hR]
    simp only [List.mem_append, e1, e3, or_false, false_or, List.mem_flatMap,
      pageBtn_mem_pageEntry, List.mem_range'_1]
    constructor
    · rintro ⟨i, ⟨hi1, hi2⟩, hbtn, rfl, rfl⟩
      exact ⟨hi1, by omega, hbtn, rfl⟩
    · rintro ⟨h1, h2, h3, rfl⟩
      exact ⟨n, ⟨h1, by omega⟩, h3, rfl, rfl⟩
  · have e1 : List.count PagItem.dots (if 1 < c then [PagItem.prevBtn] else []) = 0 := by
      split_ifs <;> rfl
    have e3 : List.count PagItem.dots
        (if c < totalPagesFor numPosts then [PagItem.nextBtn] else []) = 0 := by
      split_ifs <;> rfl
    rw [hR, List.count_append, List.count_append, e1, e3,
      dots_count (totalPagesFor numPosts) c hT hc1 hc2]
    omega

/-- Witness for the amended claim C2 at 20 posts (3 pages), current
page 2: Previous is shown and there is no ellipsis. -/
theorem pagination_controls_witness :
    2 ≤ totalPagesFor 20 ∧ 1 ≤ 2 ∧ 2 ≤ totalPagesFor 20 ∧
    (PagItem.prevBtn ∈ renderPaginationControls 20 2 ↔ (2 : Nat) ≠ 1) ∧
    (List.count PagItem.dots (renderPaginationControls 20 2) =
      (if 4 ≤ 2 then 1 else 0) + (if 2 + 3 ≤ totalPagesFor 20 then 1 else 0)) :=
  ⟨by decide, by decide, by decide,
    (pagination_controls_amended 20 2 (by decide) (by decide) (by decide)).1,
    (pagination_controls_amended 20 2 (by decide) (by decide) (by decide)).2.2.2⟩

/-! ## Claim C4: entity encoding of user-supplied fields -/

/-- A post whose image field carries an attribute-breakout script payload. -/
def badImagePost : Post :=
  { slug := "bad", title := "Safe Title", category := "Recipes", date := "",
    excerpt := "hello", image := some "\"><script>alert(1)</script>",
    content := none }

/-- Claim C4 meets a code bug: renderHeroCarousel interpolates the image
field raw into the slide markup, so the script payload reaches the output
HTML verbatim there, while escapeHtml would have neutralised it (no
`<script` survives encoding) and createPostCard, which does escape the
image field, emits no raw `<script` for the same post.  The title example
of the claim does encode as stated. -/
theorem carousel_image_unescaped :
    subOf (carouselSlideHtml badImagePost 0) "<script>alert(1)</script>" = true ∧
    subOf (escapeHtml "\"><script>alert(1)</script>") "<script" = false ∧
    subOf (createPostCardHtml false badImagePost) "<script" = false ∧
    escapeHtml "<script>alert(1)</script>" =
      "&lt;script&gt;alert(1)&lt;/script&gt;" := by decide

end BlogSpec
